import Mathlib

/-!
Verification of the hardware health checker (src/hardware_checker.py).

The program is a small CLI over a flat-file JSON log.  We shallowly embed
the parts the claims are about:

* JSON values (`Json`): the values `json.loads` produces, with numbers as
  rationals.  Python floats compare exactly as their rational readings do at
  every input the claims mention, so `ℚ` is an adequate number model here.
* the backing file (`FileState`): what matters to `read_log` is whether the
  file is missing, raises an OS-level error when read, holds text that does
  not decode as JSON, or holds text whose decoding is a given `Json` value.
  `json.dumps`/`json.loads` of the standard library round-trip every value
  they produce, so a written file is modelled by the value it decodes to.
* the operations `read_log`, `write_log`, `append_log`, `health_checks`,
  `format_report`, `view_recent_logs`, `export_latest_report`, each
  translated line by line from the source.  Python exceptions (KeyError,
  TypeError, AttributeError, OSError) are modelled with `Except String`.
-/

/-- JSON values as produced by `json.loads`: null, booleans, numbers,
strings, arrays and objects (association lists in document order). -/
inductive Json where
  | null : Json
  | bool (b : Bool) : Json
  | num (q : ℚ) : Json
  | str (s : String) : Json
  | arr (xs : List Json) : Json
  | obj (kvs : List (String × Json)) : Json

/-- Decimal digits of a natural number, with fuel (first argument) so that
the recursion is structural; the wrapper always passes enough fuel. -/
def natDigitsAux : Nat → Nat → List Char
  | 0, _ => []
  | fuel + 1, n =>
      if n < 10 then [Nat.digitChar n]
      else natDigitsAux fuel (n / 10) ++ [Nat.digitChar (n % 10)]

/-- Python decimal rendering of a natural number. -/
def pyNatRepr (n : Nat) : String := String.mk (natDigitsAux (n + 1) n)

/-- Python decimal rendering of an integer. -/
def pyIntRepr (i : Int) : String :=
  if i < 0 then "-" ++ pyNatRepr i.natAbs else pyNatRepr i.natAbs

/-- Rendering of a JSON number by Python string interpolation.  Integral
values print as integers, as Python prints ints; for non-integral values
Python prints shortest-repr float digits, abstracted here as the fraction
`num/den` — no claim depends on the digit string of a non-integral number. -/
def pyNumRepr (q : ℚ) : String :=
  if q.den = 1 then pyIntRepr q.num
  else pyIntRepr q.num ++ "/" ++ pyNatRepr q.den

/-- Python `str(v)` for a decoded JSON value `v`, with fuel (first argument)
making the recursion into containers structural; the wrapper `pyStrJson`
always passes enough fuel, so the fuel-exhausted row is never reached.
Leaves are rendered exactly as Python renders them; container rendering
(bracketed, comma-separated) abstracts from Python quoting details, which no
claim depends on. -/
def pyStrJsonF : Nat → Json → String
  | _, Json.null => "None"
  | _, Json.bool b => if b then "True" else "False"
  | _, Json.num q => pyNumRepr q
  | _, Json.str s => s
  | fuel + 1, Json.arr xs =>
      "[" ++ String.intercalate ", " (xs.map (pyStrJsonF fuel)) ++ "]"
  | fuel + 1, Json.obj kvs =>
      "\x7b" ++
        String.intercalate ", " (kvs.map (fun kv => kv.1 ++ ": " ++ pyStrJsonF fuel kv.2)) ++
      "\x7d"
  | 0, _ => ""

/-- Node count of a JSON value; an upper bound on its nesting depth, so it
is always enough fuel for `pyStrJsonF`. -/
def Json.size : Json → Nat
  | Json.null => 1
  | Json.bool _ => 1
  | Json.num _ => 1
  | Json.str _ => 1
  | Json.arr xs => 1 + (xs.attach.map (fun x => Json.size x.1)).sum
  | Json.obj kvs => 1 + (kvs.attach.map (fun kv => Json.size kv.1.2)).sum
decreasing_by
  · have h := List.sizeOf_lt_of_mem x.2
    simp only [Json.arr.sizeOf_spec]
    omega
  · have h := List.sizeOf_lt_of_mem kv.2
    have h2 : sizeOf kv.1 = 1 + sizeOf kv.1.1 + sizeOf kv.1.2 := by
      obtain ⟨⟨a, b⟩, hm⟩ := kv
      simp
    simp only [Json.obj.sizeOf_spec]
    omega

/-- Python `str(v)` for a decoded JSON value `v`, as used by the f-strings
of the source: leaves render directly, containers through the fueled
renderer. -/
def pyStrJson : Json → String
  | Json.null => "None"
  | Json.bool b => if b then "True" else "False"
  | Json.num q => pyNumRepr q
  | Json.str s => s
  | Json.arr xs => pyStrJsonF (Json.size (Json.arr xs)) (Json.arr xs)
  | Json.obj kvs => pyStrJsonF (Json.size (Json.obj kvs)) (Json.obj kvs)

/-- Python subscript `v[k]` with a string key: a present key of a dict gives
its value, an absent key raises KeyError, subscripting a non-dict by a string
raises TypeError. -/
def Json.item (v : Json) (k : String) : Except String Json :=
  match v with
  | Json.obj kvs =>
      match kvs.lookup k with
      | some x => Except.ok x
      | none => Except.error "KeyError"
  | _ => Except.error "TypeError"

/-- Python `v.get(k, default)`: on a dict, the value at `k` or the default;
on a non-dict, AttributeError (no `get` attribute). -/
def pyGet (v : Json) (k : String) (dflt : Json) : Except String Json :=
  match v with
  | Json.obj kvs => Except.ok ((kvs.lookup k).getD dflt)
  | _ => Except.error "AttributeError"

/-- Python `len(v)`: sized containers have a length, other values raise
TypeError. -/
def pyLen : Json → Except String Nat
  | Json.arr xs => Except.ok xs.length
  | Json.obj kvs => Except.ok kvs.length
  | Json.str s => Except.ok s.length
  | _ => Except.error "TypeError"

/-- Python truthiness of a decoded JSON value (`if warnings:`). -/
def pyTruthy : Json → Bool
  | Json.null => false
  | Json.bool b => b
  | Json.num q => decide (q ≠ 0)
  | Json.str s => !s.isEmpty
  | Json.arr xs => !xs.isEmpty
  | Json.obj kvs => !kvs.isEmpty

/-- Python iteration `for w in v`: lists yield their elements, strings their
one-character strings, dicts their keys; other values raise TypeError. -/
def pyIter : Json → Except String (List Json)
  | Json.arr xs => Except.ok xs
  | Json.str s => Except.ok (s.data.map (fun c => Json.str (String.singleton c)))
  | Json.obj kvs => Except.ok (kvs.map (fun kv => Json.str kv.1))
  | _ => Except.error "TypeError"

/-- Python `a >= c` for a decoded JSON value `a` and an integer literal `c`:
numbers (and booleans, which are ints) compare, anything else raises
TypeError. -/
def pyGE (a : Json) (c : ℚ) : Except String Bool :=
  match a with
  | Json.num q => Except.ok (decide (c ≤ q))
  | Json.bool b => Except.ok (decide (c ≤ (if b then (1 : ℚ) else 0)))
  | _ => Except.error "TypeError"

/-- Python `a <= c`, as `pyGE`. -/
def pyLE (a : Json) (c : ℚ) : Except String Bool :=
  match a with
  | Json.num q => Except.ok (decide (q ≤ c))
  | Json.bool b => Except.ok (decide ((if b then (1 : ℚ) else 0) ≤ c))
  | _ => Except.error "TypeError"

/-- The state of the backing file `hardware_log.json`, as far as `read_log`
(src lines 72-79) can distinguish it: the file is missing; it exists but
`Path.read_text` raises an OS-level error (OSError, UnicodeDecodeError); it
reads as text on which `json.loads` raises JSONDecodeError; or it reads as
text whose `json.loads` is the value carried. -/
inductive FileState where
  | missing : FileState
  | ioError : FileState
  | unparseable : FileState
  | parsed (v : Json) : FileState

/-- Source lines 72-79 (`read_log`): a missing file gives `[]`; the text is
read and decoded, a decode failure gives `[]`, a decoded non-list gives `[]`,
a decoded list gives its elements.  Only `json.JSONDecodeError` is caught, so
an OS-level read error propagates (modelled as `Except.error`). -/
def read_log (fs : FileState) : Except String (List Json) :=
  match fs with
  | FileState.missing => Except.ok []
  | FileState.ioError => Except.error "OSError"
  | FileState.unparseable => Except.ok []
  | FileState.parsed (Json.arr xs) => Except.ok xs
  | FileState.parsed _ => Except.ok []

/-- Source lines 83-84 (`write_log`): the file is rewritten with
`json.dumps(entries, indent=2)`.  The standard json module round-trips every
value it dumps, so the resulting file state decodes to the written array;
the 2-space indentation is a concrete-syntax detail below this model. -/
def write_log (entries : List Json) : FileState :=
  FileState.parsed (Json.arr entries)

/-- Source lines 88-91 (`append_log`): read the full history, append the one
entry, write the full history back.  A read error propagates. -/
def append_log (entry : Json) (fs : FileState) : Except String FileState := do
  let entries ← read_log fs
  pure (write_log (entries ++ [entry]))

/-- The disk warning string of src line 64. -/
def diskWarning : String := "Disk usage is high (>= 85%). Consider freeing space."

/-- The RAM warning string of src line 66. -/
def ramWarning : String := "RAM available is low (<= 2 GB). Close apps or add memory."

/-- Source lines 60-68 (`health_checks`): on the snapshot dict, compare
`info["disk_gb"]["percent_used"] >= 85` then `info["ram_gb"]["available"]
<= 2.0`, appending the fixed warning in each case, disk check first. -/
def health_checks (info : Json) : Except String (List String) := do
  let warnings : List String := []
  let dg ← Json.item info "disk_gb"
  let dpct ← Json.item dg "percent_used"
  let c1 ← pyGE dpct 85
  let warnings := if c1 then warnings ++ [diskWarning] else warnings
  let rg ← Json.item info "ram_gb"
  let avail ← Json.item rg "available"
  let c2 ← pyLE avail 2
  let warnings := if c2 then warnings ++ [ramWarning] else warnings
  pure warnings

/-- The fixed sentence of src line 119. -/
def noWarnSentence : String := "No warnings. System looks healthy for basic checks."

/-- The warnings heading of src line 114. -/
def warnHeading : String := "--- Warnings ---"

/-- Source lines 95-121 (`format_report`), up to the final join: the `lines`
list the function builds.  Each field access is a dict subscript that can
raise KeyError/TypeError; each interpolation renders with Python `str`.  The
warnings parameter is the decoded value passed in (a list of strings on every
in-repo call from `run_health_check`; whatever `latest.get("warnings", [])`
returned on the export path). -/
def format_report_lines (info : Json) (warnings : Json) : Except String (List String) := do
  let ts ← Json.item info "timestamp"
  let os ← Json.item info "os"
  let osName ← Json.item os "name"
  let osVer ← Json.item os "version"
  let osArch ← Json.item os "arch"
  let cpu ← Json.item info "cpu"
  let phys ← Json.item cpu "physical_cores"
  let logi ← Json.item cpu "logical_cores"
  let ram ← Json.item info "ram_gb"
  let ramAvail ← Json.item ram "available"
  let ramTot ← Json.item ram "total"
  let ramPct ← Json.item ram "percent_used"
  let disk ← Json.item info "disk_gb"
  let dPath ← Json.item disk "path_checked"
  let dFree ← Json.item disk "free"
  let dTot ← Json.item disk "total"
  let dPct ← Json.item disk "percent_used"
  let base : List String :=
    ["=== Hardware Health Report ===",
     "Timestamp: " ++ pyStrJson ts,
     "OS: " ++ pyStrJson osName ++ " " ++ pyStrJson osVer ++ " (" ++ pyStrJson osArch ++ ")",
     "CPU Cores: " ++ pyStrJson phys ++ " physical / " ++ pyStrJson logi ++ " logical",
     "RAM: " ++ pyStrJson ramAvail ++ " GB available / " ++ pyStrJson ramTot ++
       " GB total (" ++ pyStrJson ramPct ++ "% used)",
     "Disk (" ++ pyStrJson dPath ++ "): " ++ pyStrJson dFree ++ " GB free / " ++
       pyStrJson dTot ++ " GB total (" ++ pyStrJson dPct ++ "% used)"]
  if pyTruthy warnings then
    let ws ← pyIter warnings
    pure (base ++ ["", warnHeading] ++ ws.map (fun w => "- " ++ pyStrJson w))
  else
    pure (base ++ ["", noWarnSentence])

/-- Source line 121: the built lines joined with newlines. -/
def format_report (info : Json) (warnings : Json) : Except String String := do
  let ls ← format_report_lines info warnings
  pure (String.intercalate "\n" ls)

/-- Source line 148, `recent = entries[-limit:]` for a nonnegative `limit`:
Python negates the index, and `-0 = 0`, so `limit = 0` slices from the start
(the whole list) while `limit > 0` takes the last `min(limit, len)` items. -/
def recent_slice (limit : Nat) (entries : List Json) : List Json :=
  if limit = 0 then entries else entries.drop (entries.length - limit)

/-- Source lines 150-156: one printed summary line of `view_recent_logs`,
for index `i` (enumeration starts at 1) and entry `entry`.  Every lookup uses
`dict.get` with a placeholder default, so well-formed and plain-empty entries
both print; a non-dict where a dict is expected raises AttributeError, and a
`len` of an unsized value raises TypeError. -/
def view_entry_line (i : Nat) (entry : Json) : Except String String := do
  let info ← pyGet entry "system_info" (Json.obj [])
  let ts ← pyGet info "timestamp" (Json.str "unknown")
  let dg ← pyGet info "disk_gb" (Json.obj [])
  let dpct ← pyGet dg "percent_used" (Json.str "?")
  let rg ← pyGet info "ram_gb" (Json.obj [])
  let rpct ← pyGet rg "percent_used" (Json.str "?")
  let wsj ← pyGet entry "warnings" (Json.arr [])
  let wc ← pyLen wsj
  pure (pyNatRepr i ++ ". " ++ pyStrJson ts ++ " | Disk Used: " ++ pyStrJson dpct ++
        "% | RAM Used: " ++ pyStrJson rpct ++ "% | Warnings: " ++ pyNatRepr wc)

/-- Source lines 142-157 (`view_recent_logs`): read the history; empty
history prints only the no-entries message; otherwise slice the last
`limit` entries and print a header plus one summary line per entry.
The result is the sequence of printed lines (blank-line padding of the
console output omitted). -/
def view_recent_logs (limit : Nat) (log : FileState) : Except String (List String) := do
  let entries ← read_log log
  if entries.isEmpty then
    pure ["No log entries found yet."]
  else
    let recent := recent_slice limit entries
    let body ← (recent.enumFrom 1).mapM (fun p => view_entry_line p.1 p.2)
    pure (("=== Showing last " ++ pyNatRepr recent.length ++ " log entries ===") :: body)

/-- The no-logs message of src line 164 (without console padding). -/
def noLogsMsg : String := "No logs found. Run a health check first."

/-- The confirmation message of src line 175; the absolute path produced by
`Path.resolve()` is environment-dependent and abstracted away. -/
def exportedMsg : String := "Exported latest report to: latest_report.txt"

/-- Source lines 167-170: the report text exported for one log entry —
`entry.get("system_info", {})` and `entry.get("warnings", [])` fed to
`format_report`. -/
def entry_report (latest : Json) : Except String String := do
  let info ← pyGet latest "system_info" (Json.obj [])
  let warnings ← pyGet latest "warnings" (Json.arr [])
  format_report info warnings

/-- Source lines 161-175 (`export_latest_report`): read the history; if it
is empty print the no-logs message and leave the export file `prior` as it
was; otherwise format the last entry and overwrite the export file with the
report.  The result pairs the printed message with the export-file content
afterwards; a raised exception propagates. -/
def export_latest_report (log : FileState) (prior : Option String) :
    Except String (String × Option String) := do
  let entries ← read_log log
  match entries.getLast? with
  | none => pure (noLogsMsg, prior)
  | some latest => do
      let report ← entry_report latest
      pure (exportedMsg, some report)

/-- The OS block of a snapshot (src line 42). -/
structure OsInfo where
  name : String
  version : String
  arch : String

/-- The CPU block of a snapshot (src line 43). -/
structure CpuInfo where
  physical_cores : Int
  logical_cores : Int

/-- The RAM block of a snapshot (src lines 44-48). -/
structure RamInfo where
  total : ℚ
  available : ℚ
  percent_used : ℚ

/-- The disk block of a snapshot (src lines 49-55). -/
structure DiskInfo where
  path_checked : String
  total : ℚ
  used : ℚ
  free : ℚ
  percent_used : ℚ

/-- A well-formed system snapshot: the shape of the dict
`collect_system_info` returns (src lines 40-56).  The sampling itself is an
external collaborator; the core operations only consume this shape. -/
structure SystemInfo where
  timestamp : String
  os : OsInfo
  cpu : CpuInfo
  ram_gb : RamInfo
  disk_gb : DiskInfo

/-- The JSON object a snapshot's OS block occupies, key order as in the
source. -/
def OsInfo.toJson (o : OsInfo) : Json :=
  Json.obj [("name", Json.str o.name), ("version", Json.str o.version),
            ("arch", Json.str o.arch)]

/-- The JSON object a snapshot's CPU block occupies. -/
def CpuInfo.toJson (c : CpuInfo) : Json :=
  Json.obj [("physical_cores", Json.num (c.physical_cores : ℚ)),
            ("logical_cores", Json.num (c.logical_cores : ℚ))]

/-- The JSON object a snapshot's RAM block occupies. -/
def RamInfo.toJson (r : RamInfo) : Json :=
  Json.obj [("total", Json.num r.total), ("available", Json.num r.available),
            ("percent_used", Json.num r.percent_used)]

/-- The JSON object a snapshot's disk block occupies. -/
def DiskInfo.toJson (d : DiskInfo) : Json :=
  Json.obj [("path_checked", Json.str d.path_checked), ("total", Json.num d.total),
            ("used", Json.num d.used), ("free", Json.num d.free),
            ("percent_used", Json.num d.percent_used)]

/-- The dict `collect_system_info` returns for a snapshot, key order as in
src lines 40-56. -/
def SystemInfo.toJson (s : SystemInfo) : Json :=
  Json.obj [("timestamp", Json.str s.timestamp), ("os", s.os.toJson),
            ("cpu", s.cpu.toJson), ("ram_gb", s.ram_gb.toJson),
            ("disk_gb", s.disk_gb.toJson)]

/-- A snapshot with the two health-relevant fields set and fixed plausible
values elsewhere; used for the concrete instances the claims name. -/
def mkSnapshot (diskPct ramAvail : ℚ) : SystemInfo :=
  { timestamp := "2024-01-01T00:00:00"
    os := { name := "Linux", version := "6.1", arch := "x86_64" }
    cpu := { physical_cores := 4, logical_cores := 8 }
    ram_gb := { total := 16, available := ramAvail, percent_used := 50 }
    disk_gb := { path_checked := "/", total := 100, used := 50, free := 50,
                 percent_used := diskPct } }

/-!  Helper lemmas shared by the claim theorems. -/

/-- On a well-formed snapshot every lookup of `health_checks` succeeds, and
the result is the disk warning (under its threshold condition) followed by
the RAM warning (under its condition). -/
lemma health_checks_eval (s : SystemInfo) :
    health_checks s.toJson =
      Except.ok ((if (85:ℚ) ≤ s.disk_gb.percent_used then [diskWarning] else []) ++
                 (if s.ram_gb.available ≤ (2:ℚ) then [ramWarning] else [])) := by
  have hform : health_checks s.toJson =
      Except.ok (if decide (s.ram_gb.available ≤ (2:ℚ)) = true
                 then (if decide ((85:ℚ) ≤ s.disk_gb.percent_used) = true
                       then [] ++ [diskWarning] else []) ++ [ramWarning]
                 else (if decide ((85:ℚ) ≤ s.disk_gb.percent_used) = true
                       then [] ++ [diskWarning] else [])) := rfl
  rw [hform]
  by_cases h1 : (85:ℚ) ≤ s.disk_gb.percent_used <;>
  by_cases h2 : s.ram_gb.available ≤ (2:ℚ) <;>
  simp [h1, h2]

/-- The two fixed warning strings differ. -/
lemma disk_ne_ram : diskWarning ≠ ramWarning := by decide

/-- Bind on a successful `Except` computation applies the continuation. -/
lemma except_ok_bind {ε α β : Type} (a : α) (f : α → Except ε β) :
    (Except.ok a >>= f : Except ε β) = f a := rfl

/-- Map on a successful `Except` computation applies the function. -/
lemma except_ok_map {ε α β : Type} (f : α → β) (a : α) :
    (f <$> (Except.ok a : Except ε α) : Except ε β) = Except.ok (f a) := rfl

/-- A string starting with the character `c` differs from a string starting
with a different character `d`. -/
lemma append_ne_head (c d : Char) (cs : List Char) (p s t : String)
    (hp : p.data = c :: cs) (ht : t.data.head? = some d) (hcd : c ≠ d) :
    p ++ s ≠ t := by
  intro he
  have h1 : p.data ++ s.data = t.data := congrArg String.data he
  rw [hp, List.cons_append] at h1
  have h2 := congrArg List.head? h1
  rw [ht] at h2
  simp only [List.head?_cons, Option.some.injEq] at h2
  exact hcd h2

/-- Evaluation of the report lines on a well-formed snapshot with an empty
warning list: the six fixed-prefix lines, a blank line, and the fixed
no-warnings sentence. -/
lemma format_lines_empty (s : SystemInfo) :
    format_report_lines s.toJson (Json.arr []) =
      Except.ok
        ["=== Hardware Health Report ===",
         "Timestamp: " ++ s.timestamp,
         "OS: " ++ s.os.name ++ " " ++ s.os.version ++ " (" ++ s.os.arch ++ ")",
         "CPU Cores: " ++ pyNumRepr (s.cpu.physical_cores : ℚ) ++ " physical / " ++
           pyNumRepr (s.cpu.logical_cores : ℚ) ++ " logical",
         "RAM: " ++ pyNumRepr s.ram_gb.available ++ " GB available / " ++
           pyNumRepr s.ram_gb.total ++ " GB total (" ++ pyNumRepr s.ram_gb.percent_used ++
           "% used)",
         "Disk (" ++ s.disk_gb.path_checked ++ "): " ++ pyNumRepr s.disk_gb.free ++
           " GB free / " ++ pyNumRepr s.disk_gb.total ++ " GB total (" ++
           pyNumRepr s.disk_gb.percent_used ++ "% used)",
         "", noWarnSentence] := rfl

/-- Evaluation of the report lines on a well-formed snapshot with one
warning string: the six fixed-prefix lines, a blank line, the warnings
heading, and one dash-prefixed line. -/
lemma format_lines_one (s : SystemInfo) (w : String) :
    format_report_lines s.toJson (Json.arr [Json.str w]) =
      Except.ok
        ["=== Hardware Health Report ===",
         "Timestamp: " ++ s.timestamp,
         "OS: " ++ s.os.name ++ " " ++ s.os.version ++ " (" ++ s.os.arch ++ ")",
         "CPU Cores: " ++ pyNumRepr (s.cpu.physical_cores : ℚ) ++ " physical / " ++
           pyNumRepr (s.cpu.logical_cores : ℚ) ++ " logical",
         "RAM: " ++ pyNumRepr s.ram_gb.available ++ " GB available / " ++
           pyNumRepr s.ram_gb.total ++ " GB total (" ++ pyNumRepr s.ram_gb.percent_used ++
           "% used)",
         "Disk (" ++ s.disk_gb.path_checked ++ "): " ++ pyNumRepr s.disk_gb.free ++
           " GB free / " ++ pyNumRepr s.disk_gb.total ++ " GB total (" ++
           pyNumRepr s.disk_gb.percent_used ++ "% used)",
         "", warnHeading, "- " ++ w] := rfl

/-!  Claim theorems. -/

/-- C1 counterexample: the claim predicts that tail(0) returns min(0, L) = 0
entries, but on the one-entry history the slice `entries[-0:]` returns the
whole history (1 entry). -/
theorem C1_counterexample :
    ¬ ((recent_slice 0 [Json.null]).length = min 0 ([Json.null] : List Json).length) := by
  decide

/-- C1 (amended): for every requested count n ≥ 1, tail(n) returns exactly
min(n, L) entries and they are a suffix of the history (the last min(n, L)
elements in original chronological order); in particular n > L returns the
full history.  For n = 0, however, the slice `entries[-0:]` is the whole
history, not an empty sequence. -/
theorem C1_tail :
    (∀ (n : Nat) (entries : List Json), 1 ≤ n →
        ((recent_slice n entries).length = min n entries.length ∧
         List.IsSuffix (recent_slice n entries) entries)) ∧
    (∀ entries : List Json, recent_slice 0 entries = entries) := by
  constructor
  · intro n entries h
    have hn : ¬ n = 0 := by omega
    constructor
    · simp only [recent_slice, hn, if_false]
      rw [List.length_drop]
      omega
    · simp only [recent_slice, hn, if_false]
      exact List.drop_suffix _ _
  · intro entries
    simp [recent_slice]

/-- C2: reading the log after writing any sequence of entries reconstructs
the same sequence, equal entry by entry (hence in all fields) and in the
same order. -/
theorem C2_round_trip (entries : List Json) :
    read_log (write_log entries) = Except.ok entries := rfl

/-- C3 counterexample: on a backing file whose read raises an OS-level I/O
error, read_log does not return an empty sequence — only json.JSONDecodeError
is caught, so the error propagates. -/
theorem C3_counterexample : read_log FileState.ioError ≠ Except.ok ([] : List Json) :=
  fun h => nomatch h

/-- C3 (amended): readAll returns an empty sequence when the backing file is
missing, when its text is not valid JSON, and when it holds valid JSON that
is not an array; but an I/O error raised while reading an existing file
propagates to the caller, since only json.JSONDecodeError is caught. -/
theorem C3_read_tolerance :
    read_log FileState.missing = Except.ok [] ∧
    read_log FileState.unparseable = Except.ok [] ∧
    (∀ v : Json, (∀ xs, v ≠ Json.arr xs) → read_log (FileState.parsed v) = Except.ok []) ∧
    read_log FileState.ioError = Except.error "OSError" := by
  refine ⟨rfl, rfl, ?_, rfl⟩
  intro v hv
  cases v with
  | arr xs => exact (hv xs rfl).elim
  | null => rfl
  | bool b => rfl
  | num q => rfl
  | str s => rfl
  | obj kvs => rfl

/-- C5: appending to a prior file state holding a JSON array leaves the file
holding exactly the prior history with the entry appended at the end (a full
overwrite), and a readAll after the append returns the prior readAll result
followed by the one new entry. -/
theorem C5_append (xs : List Json) (e : Json) :
    read_log (FileState.parsed (Json.arr xs)) = Except.ok xs ∧
    append_log e (FileState.parsed (Json.arr xs)) = Except.ok (write_log (xs ++ [e])) ∧
    (append_log e (FileState.parsed (Json.arr xs)) >>= read_log) = Except.ok (xs ++ [e]) :=
  ⟨rfl, rfl, rfl⟩

/-- C8: appending after a missing, unparseable, or non-array backing file
silently discards the prior content — the resulting file holds a JSON array
with exactly the one new entry. -/
theorem C8_append_discards :
    (∀ e : Json, append_log e FileState.missing = Except.ok (FileState.parsed (Json.arr [e]))) ∧
    (∀ e : Json, append_log e FileState.unparseable =
        Except.ok (FileState.parsed (Json.arr [e]))) ∧
    (∀ (e v : Json), (∀ xs, v ≠ Json.arr xs) →
        append_log e (FileState.parsed v) = Except.ok (FileState.parsed (Json.arr [e]))) := by
  refine ⟨fun e => rfl, fun e => rfl, ?_⟩
  intro e v hv
  cases v with
  | arr xs => exact (hv xs rfl).elim
  | null => rfl
  | bool b => rfl
  | num q => rfl
  | str s => rfl
  | obj kvs => rfl

/-- C4: for every well-formed snapshot the evaluator emits the disk-high
warning iff disk percent used is at least 85 and the RAM-low warning iff
available RAM is at most 2 GB, disk before RAM and nothing else; at
disk = 85, ram = 2.0 it returns exactly the two warnings in order, and at
disk = 84.9, ram = 2.1 it returns the empty sequence. -/
theorem C4_health_evaluator :
    (∀ s : SystemInfo, ∃ ws : List String,
        health_checks s.toJson = Except.ok ws ∧
        (diskWarning ∈ ws ↔ (85:ℚ) ≤ s.disk_gb.percent_used) ∧
        (ramWarning ∈ ws ↔ s.ram_gb.available ≤ (2:ℚ)) ∧
        (ws = [] ∨ ws = [diskWarning] ∨ ws = [ramWarning] ∨
         ws = [diskWarning, ramWarning])) ∧
    health_checks (mkSnapshot 85 2).toJson = Except.ok [diskWarning, ramWarning] ∧
    health_checks (mkSnapshot 84.9 2.1).toJson = Except.ok [] := by
  refine ⟨?_, ?_, ?_⟩
  · intro s
    refine ⟨_, health_checks_eval s, ?_⟩
    by_cases h1 : (85:ℚ) ≤ s.disk_gb.percent_used <;>
    by_cases h2 : s.ram_gb.available ≤ (2:ℚ) <;>
    simp [h1, h2, disk_ne_ram, disk_ne_ram.symm]
  · rw [health_checks_eval]
    simp only [mkSnapshot]
    norm_num
  · rw [health_checks_eval]
    simp only [mkSnapshot]
    norm_num

/-- C9: for every well-formed snapshot the warning list is a subsequence of
the fixed two-element list [disk warning, RAM warning]: at most 2 entries,
every entry one of the two fixed strings, and the disk warning never after
the RAM warning. -/
theorem C9_warning_shape (s : SystemInfo) :
    ∃ ws : List String,
      health_checks s.toJson = Except.ok ws ∧
      List.Sublist ws [diskWarning, ramWarning] ∧
      ws.length ≤ 2 ∧
      (ws.all fun w => w == diskWarning || w == ramWarning) = true := by
  refine ⟨_, health_checks_eval s, ?_⟩
  by_cases h1 : (85:ℚ) ≤ s.disk_gb.percent_used <;>
  by_cases h2 : s.ram_gb.available ≤ (2:ℚ) <;>
  simp [h1, h2]

/-- C6: the formatter, a pure function of (snapshot, warnings), on an empty
warning list emits the fixed no-warnings sentence and no Warnings heading
line (indeed no dash-prefixed line at all); on the one-warning list ["w1"]
it emits a Warnings section with exactly one dash-prefixed line, "- w1".
The joined report text is the newline join of those lines in both cases. -/
theorem C6_formatter (s : SystemInfo) :
    ∃ l₀ l₁ : List String,
      format_report_lines s.toJson (Json.arr []) = Except.ok l₀ ∧
      format_report s.toJson (Json.arr []) = Except.ok (String.intercalate "\n" l₀) ∧
      noWarnSentence ∈ l₀ ∧
      warnHeading ∉ l₀ ∧
      l₀.countP (fun l => l.data.take 2 == ['-', ' ']) = 0 ∧
      format_report_lines s.toJson (Json.arr [Json.str "w1"]) = Except.ok l₁ ∧
      format_report s.toJson (Json.arr [Json.str "w1"]) =
        Except.ok (String.intercalate "\n" l₁) ∧
      warnHeading ∈ l₁ ∧
      ("- w1") ∈ l₁ ∧
      l₁.countP (fun l => l.data.take 2 == ['-', ' ']) = 1 := by
  refine ⟨_, _, format_lines_empty s, rfl, ?_, ?_, rfl, format_lines_one s "w1", rfl, ?_, ?_, rfl⟩
  · simp
  · intro h
    simp only [List.mem_cons, List.not_mem_nil, or_false] at h
    rcases h with h|h|h|h|h|h|h|h
    · exact absurd h (by decide)
    · exact append_ne_head 'T' '-' _ _ _ warnHeading rfl rfl (by decide) h.symm
    · exact append_ne_head 'O' '-' _ _ _ warnHeading rfl rfl (by decide) h.symm
    · exact append_ne_head 'C' '-' _ _ _ warnHeading rfl rfl (by decide) h.symm
    · exact append_ne_head 'R' '-' _ _ _ warnHeading rfl rfl (by decide) h.symm
    · exact append_ne_head 'D' '-' _ _ _ warnHeading rfl rfl (by decide) h.symm
    · exact absurd h (by decide)
    · exact absurd h (by decide)
  · simp
  · simp

/-- C7: exporting with an empty history reports the no-logs message and
leaves the export file unchanged; with a nonempty history whose last entry
formats to report `r`, it overwrites the export file with exactly `r`. -/
theorem C7_export (log : FileState) (prior : Option String) (es : List Json)
    (h : read_log log = Except.ok es) :
    (es = [] → export_latest_report log prior = Except.ok (noLogsMsg, prior)) ∧
    (∀ latest r, es.getLast? = some latest → entry_report latest = Except.ok r →
        export_latest_report log prior = Except.ok (exportedMsg, some r)) := by
  constructor
  · intro he
    subst he
    simp only [export_latest_report, h, except_ok_bind]
    rfl
  · intro latest r h1 h2
    simp only [export_latest_report, h, except_ok_bind, h1, h2, except_ok_map]
    rfl

/-- C7 witness: the export operation on a missing backing file (empty
history) reports the no-logs message and leaves the export file content
untouched. -/
theorem C7_export_witness :
    export_latest_report FileState.missing none = Except.ok (noLogsMsg, none) :=
  (C7_export FileState.missing none [] rfl).1 rfl

/-- C10: the export path is not total over parseable histories: on the valid
JSON array `[{}]`, whose last entry lacks the system_info fields (in
particular the timestamp), export fails with the formatter's KeyError, while
ViewRecent on the same history prints placeholder values and succeeds. -/
theorem C10_export_partiality :
    read_log (FileState.parsed (Json.arr [Json.obj []])) = Except.ok [Json.obj []] ∧
    export_latest_report (FileState.parsed (Json.arr [Json.obj []])) none =
      Except.error "KeyError" ∧
    view_recent_logs 5 (FileState.parsed (Json.arr [Json.obj []])) =
      Except.ok ["=== Showing last 1 log entries ===",
                 "1. unknown | Disk Used: ?% | RAM Used: ?% | Warnings: 0"] :=
  ⟨rfl, rfl, rfl⟩
